import Mathlib

/-!
Verification of the nexly-cli multi-provider streaming chat client.

The development shallowly embeds the Go sources:
  * `internal/providers/provider.go` — request building, headers and
    per-provider stream decoding (namespace `Providers`);
  * `internal/config/config.go` — persisted history operations
    (namespace `Config`);
  * the terminal UI state machine (`tui` package) — key handling,
    command palette and streaming transitions (namespace `Tui`).

Machine strings are Lean `String`s manipulated through their underlying
character lists so that every definition evaluates by kernel reduction.
The Go standard library's JSON unmarshalling is treated as an oracle: each
stream decoder is parameterised by a parse function `String → Option C`
into the exact struct shape the Go code unmarshals into, with `none`
standing for a JSON parse failure.  Floating-point literals in request
bodies (the constant temperature 0.7) are represented exactly as tenths,
since Lean floats are not kernel-decidable.
-/

namespace Providers

/-- Message mirrors `providers.Message` from provider.go: a role string and
a content string. -/
structure Message where
  role : String
  content : String
deriving DecidableEq, Repr

/-- Proposition-free prefix test over the character data of two strings,
mirroring Go `strings.HasPrefix` (the marker is ASCII so character and byte
granularity coincide). -/
def strStartsWith (s p : String) : Bool := List.isPrefixOf p.data s.data

/-- Drop the first `n` characters of a string, mirroring the effect of Go
`strings.TrimPrefix` once the prefix test has succeeded (ASCII marker). -/
def strDrop (s : String) (n : Nat) : String := String.mk (s.data.drop n)

/-- Characters treated as white space by Go `unicode.IsSpace` within the
Latin-1 range, which is all the stream framing uses. -/
def isGoSpace (c : Char) : Bool :=
  c = ' ' || c = '\t' || c = '\n' || c = '\x0b' || c = '\x0c' || c = '\r' ||
  c = '\x85' || c = '\xa0'

/-- trimSpace mirrors Go `strings.TrimSpace` on each raw line read from the
response body. -/
def trimSpace (s : String) : String :=
  String.mk (((s.data.dropWhile isGoSpace).reverse.dropWhile isGoSpace).reverse)

/-- The SSE stream-data marker checked by all three stream handlers. -/
def dataMarker : String := "data: "

/-- The OpenAI-compatible end-of-stream sentinel payload. -/
def doneSentinel : String := "[DONE]"

/-- Shape the OpenAI handler unmarshals each data payload into:
`choices[i].delta.content`. -/
structure OpenAIDelta where
  content : String
deriving DecidableEq, Repr

/-- One element of the `choices` array of an OpenAI stream frame. -/
structure OpenAIChoice where
  delta : OpenAIDelta
deriving DecidableEq, Repr

/-- An OpenAI-compatible stream frame. -/
structure OpenAIChunk where
  choices : List OpenAIChoice
deriving DecidableEq, Repr

/-- Shape the Anthropic handler unmarshals each data payload into:
`delta.text`. -/
structure AnthropicDelta where
  text : String
deriving DecidableEq, Repr

/-- An Anthropic stream frame. -/
structure AnthropicChunk where
  delta : AnthropicDelta
deriving DecidableEq, Repr

/-- One element of a Google frame's `candidates[i].content.parts` array. -/
structure GooglePart where
  text : String
deriving DecidableEq, Repr

/-- The `content` object of a Google candidate. -/
structure GoogleContent where
  parts : List GooglePart
deriving DecidableEq, Repr

/-- One element of the `candidates` array of a Google stream frame. -/
structure GoogleCandidate where
  content : GoogleContent
deriving DecidableEq, Repr

/-- A Google stream frame. -/
structure GoogleChunk where
  candidates : List GoogleCandidate
deriving DecidableEq, Repr

/-- handleOpenAIStream mirrors `SimpleProvider.handleOpenAIStream`
(provider.go lines 189–227).  The response body is given as the list of
raw lines; `po` is the JSON oracle (`none` = unmarshal failure).  The
returned list is the exact sequence of `streamCallback` invocations. -/
def handleOpenAIStream (po : String → Option OpenAIChunk) :
    List String → List String
  | [] => []
  | line :: rest =>
    let t := trimSpace line
    if strStartsWith t dataMarker then
      let data := strDrop t dataMarker.length
      if data = doneSentinel then []
      else
        match po data with
        | none => handleOpenAIStream po rest
        | some r =>
          match r.choices with
          | [] => handleOpenAIStream po rest
          | c :: _ =>
            if c.delta.content = "" then handleOpenAIStream po rest
            else c.delta.content :: handleOpenAIStream po rest
    else handleOpenAIStream po rest

/-- handleAnthropicStream mirrors `SimpleProvider.handleAnthropicStream`
(provider.go lines 229–262): no sentinel, emit `delta.text` when it is
non-empty. -/
def handleAnthropicStream (pa : String → Option AnthropicChunk) :
    List String → List String
  | [] => []
  | line :: rest =>
    let t := trimSpace line
    if strStartsWith t dataMarker then
      let data := strDrop t dataMarker.length
      match pa data with
      | none => handleAnthropicStream pa rest
      | some r =>
        if r.delta.text = "" then handleAnthropicStream pa rest
        else r.delta.text :: handleAnthropicStream pa rest
    else handleAnthropicStream pa rest

/-- handleGoogleStream mirrors `SimpleProvider.handleGoogleStream`
(provider.go lines 264–301): when `candidates` and `parts` are non-empty
the callback receives `candidates[0].content.parts[0].text` with no
non-emptiness test on the text itself. -/
def handleGoogleStream (pg : String → Option GoogleChunk) :
    List String → List String
  | [] => []
  | line :: rest =>
    let t := trimSpace line
    if strStartsWith t dataMarker then
      let data := strDrop t dataMarker.length
      match pg data with
      | none => handleGoogleStream pg rest
      | some r =>
        match r.candidates with
        | [] => handleGoogleStream pg rest
        | c :: _ =>
          match c.content.parts with
          | [] => handleGoogleStream pg rest
          | p :: _ => p.text :: handleGoogleStream pg rest
    else handleGoogleStream pg rest

/-- Specification-side view of one raw line: the payload of a well-formed
data line (trimmed line carrying the stream-data marker), `none` for every
other line. -/
def dataOf (line : String) : Option String :=
  let t := trimSpace line
  if strStartsWith t dataMarker then some (strDrop t dataMarker.length)
  else none

/-- Specification-side: the payloads of the data lines of a response body,
in input order. -/
def payloads (lines : List String) : List String := lines.filterMap dataOf

/-- Specification-side: the payloads that precede the OpenAI terminal
sentinel. -/
def untilDone (ds : List String) : List String :=
  ds.takeWhile (fun d => !(d = doneSentinel : Bool))

/-- Assistant text carried by a parsed OpenAI frame (empty when the frame
has no choices). -/
def openAIText (r : OpenAIChunk) : String :=
  match r.choices with
  | [] => ""
  | c :: _ => c.delta.content

/-- Assistant text carried by a parsed Anthropic frame. -/
def anthropicText (r : AnthropicChunk) : String := r.delta.text

/-- Assistant text carried by a parsed Google frame (empty when the frame
has no candidate or no part). -/
def googleText (r : GoogleChunk) : String :=
  match r.candidates with
  | [] => ""
  | c :: _ =>
    match c.content.parts with
    | [] => ""
    | p :: _ => p.text

/-- Assistant text carried by the well-formed (parseable) data lines of an
OpenAI-compatible response, in input order, cut off at the sentinel. -/
def carriedOpenAI (po : String → Option OpenAIChunk) (lines : List String) :
    List String :=
  (untilDone (payloads lines)).filterMap (fun d => (po d).map openAIText)

/-- Assistant text carried by the well-formed data lines of an Anthropic
response, in input order. -/
def carriedAnthropic (pa : String → Option AnthropicChunk)
    (lines : List String) : List String :=
  (payloads lines).filterMap (fun d => (pa d).map anthropicText)

/-- Assistant text carried by the well-formed data lines of a Google
response, in input order. -/
def carriedGoogle (pg : String → Option GoogleChunk) (lines : List String) :
    List String :=
  (payloads lines).filterMap (fun d => (pg d).map googleText)

/-- The sink invocation a parsed Google frame produces: the first part's
text of the first candidate whenever both arrays are non-empty, regardless
of whether that text is empty. -/
def googleEmit (r : GoogleChunk) : Option String :=
  match r.candidates with
  | [] => none
  | c :: _ =>
    match c.content.parts with
    | [] => none
    | p :: _ => some p.text

/-- The full sequence of Google sink invocations predicted from the
payloads. -/
def googleEmitted (pg : String → Option GoogleChunk) (lines : List String) :
    List String :=
  (payloads lines).filterMap (fun d => (pg d).bind googleEmit)

/-- Concatenation of a list of text fragments. -/
def concatAll : List String → String
  | [] => ""
  | s :: rest => s ++ concatAll rest

/-- Boolean non-emptiness test on strings, used to state the emission
filters. -/
def neBlank (s : String) : Bool := decide (s ≠ "")

/-- SimpleProvider mirrors `providers.SimpleProvider`. -/
structure SimpleProvider where
  name : String
  apiKey : String
  model : String
  apiURL : String
deriving DecidableEq, Repr

/-- NewSimpleProvider mirrors `providers.NewSimpleProvider` (provider.go
lines 34–57): the endpoint URL switch with the OpenAI endpoint as the
default case. -/
def NewSimpleProvider (provider apiKey model : String) : SimpleProvider :=
  let apiURL :=
    if provider = "openai" then "https://api.openai.com/v1/chat/completions"
    else if provider = "anthropic" then "https://api.anthropic.com/v1/messages"
    else if provider = "google" then
      "https://generativelanguage.googleapis.com/v1beta/models/" ++ model ++
        ":streamGenerateContent?alt=sse"
    else if provider = "openrouter" then
      "https://openrouter.ai/api/v1/chat/completions"
    else if provider = "nvidia" then
      "https://integrate.api.nvidia.com/v1/chat/completions"
    else "https://api.openai.com/v1/chat/completions"
  { name := provider, apiKey := apiKey, model := model, apiURL := apiURL }

/-- One entry of the Google `contents` array: `{role, parts:[{text}]}`,
the parts kept as their text strings. -/
structure GoogleMsg where
  role : String
  parts : List String
deriving DecidableEq, Repr

/-- Request body produced by `buildRequestBody`, one constructor per body
shape the Go code builds.  The constant temperature 0.7 is recorded
exactly as tenths (`temperature10 = 7`), because Lean floating-point
values are not kernel-decidable. -/
inductive ReqBody where
  | openaiShape (model : String) (messages : List Message) (stream : Bool)
      (temperature10 : Nat)
  | anthropicShape (model : String) (messages : List Message) (stream : Bool)
      (maxTokens : Nat) (system : Option String)
  | googleShape (contents : List GoogleMsg) (temperature10 : Nat)
      (maxOutputTokens : Nat)
deriving DecidableEq, Repr

/-- formatGoogleMessages mirrors provider.go lines 303–318: every message
becomes `{role, parts:[{text}]}` with the `system` role remapped to
`model`. -/
def formatGoogleMessages (messages : List Message) : List GoogleMsg :=
  messages.map (fun m =>
    { role := if m.role = "system" then "model" else m.role
      parts := [m.content] })

/-- The `systemMsg` accumulator of the Anthropic branch of
`buildRequestBody`: starts empty and is overwritten by each system-role
message's content, so the last one wins. -/
def lastSystemContent (messages : List Message) : String :=
  messages.foldl (fun acc m => if m.role = "system" then m.content else acc) ""

/-- The `userMsgs` accumulator of the Anthropic branch: all non-system
messages in order. -/
def nonSystemMessages (messages : List Message) : List Message :=
  messages.filter (fun m => !(m.role = "system" : Bool))

/-- buildRequestBody mirrors `SimpleProvider.buildRequestBody`
(provider.go lines 108–146).  The Anthropic `system` field is present only
when the accumulated system content is non-empty. -/
def buildRequestBody (p : SimpleProvider) (messages : List Message) :
    ReqBody :=
  if p.name = "google" then
    .googleShape (formatGoogleMessages messages) 7 4096
  else if p.name = "anthropic" then
    let systemMsg := lastSystemContent messages
    .anthropicShape p.model (nonSystemMessages messages) true 4096
      (if systemMsg = "" then none else some systemMsg)
  else
    .openaiShape p.model messages true 7

/-- setHeaders mirrors `SimpleProvider.setHeaders` (provider.go lines
148–169) as the ordered list of header name/value pairs set on the
request. -/
def setHeaders (p : SimpleProvider) : List (String × String) :=
  if p.name = "anthropic" then
    [("x-api-key", p.apiKey), ("anthropic-version", "2023-06-01"),
     ("Content-Type", "application/json")]
  else if p.name = "google" then
    [("Authorization", "Bearer " ++ p.apiKey),
     ("Content-Type", "application/json")]
  else if p.name = "openrouter" then
    [("Authorization", "Bearer " ++ p.apiKey),
     ("Content-Type", "application/json"),
     ("HTTP-Referer", "https://nexlycode.vercel.app"), ("X-Title", "Nexly")]
  else if p.name = "nvidia" then
    [("Authorization", "Bearer " ++ p.apiKey),
     ("Content-Type", "application/json")]
  else
    [("Authorization", "Bearer " ++ p.apiKey),
     ("Content-Type", "application/json")]

/-- The decoder dispatch of `handleResponse` (provider.go lines 179–186):
Anthropic and Google use their dedicated handlers, every other provider
name uses the OpenAI handler. -/
def decodeDispatch (name : String) (po : String → Option OpenAIChunk)
    (pa : String → Option AnthropicChunk) (pg : String → Option GoogleChunk)
    (lines : List String) : List String :=
  if name = "anthropic" then handleAnthropicStream pa lines
  else if name = "google" then handleGoogleStream pg lines
  else handleOpenAIStream po lines

/-- Errors a send can surface.  `config` carries the formatted
missing-API-key message; `api` carries the HTTP status code and the body
text exactly as `handleResponse` captures them. -/
inductive SendError where
  | config (msg : String)
  | api (status : Nat) (body : String)
deriving DecidableEq, Repr

/-- Outcome of an exchange: the exact sequence of sink invocations on
success, or the error that aborted it. -/
inductive SendResult where
  | ok (deltas : List String)
  | err (e : SendError)
deriving DecidableEq, Repr

/-- handleResponse mirrors `SimpleProvider.handleResponse` (provider.go
lines 171–187): any status other than exactly 200 short-circuits into an
error carrying the status code and the whole body text; a 200 response is
decoded by the per-provider stream handler. -/
def handleResponse (name : String) (po : String → Option OpenAIChunk)
    (pa : String → Option AnthropicChunk) (pg : String → Option GoogleChunk)
    (status : Nat) (body : String) (lines : List String) : SendResult :=
  if status = 200 then .ok (decodeDispatch name po pa pg lines)
  else .err (.api status body)

/-- An HTTP request as assembled by `SendMessage`: target URL, header
pairs, and the JSON body shape. -/
structure HttpRequest where
  url : String
  headers : List (String × String)
  body : ReqBody
deriving DecidableEq, Repr

/-- A network oracle's answer: the HTTP status, the raw body text (read
whole on a non-200 status), and the body split into lines for the stream
decoders. -/
structure NetResponse where
  status : Nat
  body : String
  lines : List String
deriving DecidableEq, Repr

/-- SendMessage mirrors `SimpleProvider.SendMessage` (provider.go lines
80–106) with the network abstracted as an oracle from the assembled
request to a response.  An empty API key fails fast with the formatted
configuration error before the request is assembled or the oracle is
consulted; otherwise the request is built, sent, and the response handled.
Transport failures of `http.Client.Do` are orthogonal to the claims and
are not modelled. -/
def SendMessage (po : String → Option OpenAIChunk)
    (pa : String → Option AnthropicChunk) (pg : String → Option GoogleChunk)
    (p : SimpleProvider) (messages : List Message)
    (net : HttpRequest → NetResponse) : SendResult :=
  if p.apiKey = "" then
    .err (.config ("API key not configured for provider: " ++ p.name))
  else
    let req : HttpRequest :=
      { url := p.apiURL, headers := setHeaders p
        body := buildRequestBody p messages }
    let resp := net req
    handleResponse p.name po pa pg resp.status resp.body resp.lines

end Providers

namespace Config

/-- Message mirrors `config.Message` from config.go. -/
structure Message where
  role : String
  content : String
deriving DecidableEq, Repr

/-- AddMessage mirrors the pure core of `config.AddMessage` (config.go
lines 96–108) acting on the loaded history: append the new entry, then, if
the result exceeds 100 entries, keep only the last 100.  Loading and
persisting the config file around this step are I/O and are not
modelled. -/
def AddMessage (history : List Message) (role content : String) :
    List Message :=
  let h := history ++ [{ role := role, content := content }]
  if 100 < h.length then h.drop (h.length - 100) else h

/-- GetProviders mirrors `config.GetProviders`. -/
def GetProviders : List String :=
  ["openai", "anthropic", "google", "openrouter", "nvidia"]

/-- GetModels mirrors `config.GetModels` (config.go lines 116–160). -/
def GetModels (provider : String) : List String :=
  if provider = "openai" then
    ["gpt-4-turbo", "gpt-4", "gpt-4o", "gpt-4o-mini", "gpt-3.5-turbo",
     "o1", "o1-mini", "o1-preview"]
  else if provider = "anthropic" then
    ["claude-3-5-sonnet-20241022", "claude-3-5-sonnet-20240620",
     "claude-3-opus-20240229", "claude-3-haiku-20240307"]
  else if provider = "google" then
    ["gemini-2.0-flash", "gemini-1.5-pro", "gemini-1.5-flash",
     "gemini-1.0-pro"]
  else if provider = "openrouter" then
    ["openai/gpt-4", "openai/gpt-4o", "anthropic/claude-3.5-sonnet",
     "google/gemini-pro-1.5", "meta-llama/llama-3.1-70b-instruct"]
  else if provider = "nvidia" then
    ["nvidia/llama-3.1-nemotron-70b-instruct",
     "nvidia/mixtral-8x7b-instruct-v0.1", "nvidia/mistral-7b-instruct-v0.2"]
  else ["gpt-4"]

end Config

namespace Tui

/-- Message mirrors the TUI package's `Message` struct. -/
structure Message where
  role : String
  content : String
deriving DecidableEq, Repr

/-- Model mirrors the TUI `model` struct.  The `commands` field is always
the fixed `getCommands()` table and is modelled as the global `commands`
list; the spinner mutex is a concurrency artefact with no observable
state and is omitted. -/
structure Model where
  messages : List Message
  input : String
  provider : String
  model : String
  streaming : Bool
  spinner : Bool
  spinnerFrame : Nat
  width : Nat
  height : Nat
  commandView : Bool
  selectedCmd : Nat
  commandInput : String
  errMsg : String
deriving DecidableEq, Repr

/-- The key events the Update function distinguishes.  In bubbletea only
character keys carry runes; special keys are identified by
`msg.String()`. -/
inductive Key where
  | enter
  | ctrlP
  | ctrlC
  | ctrlU
  | backspace
  | escape
  | up
  | down
  | runes (s : String)
  | other
deriving DecidableEq, Repr

/-- The messages fed to Update: window resize, key press, spinner tick,
streaming completion, and streaming failure. -/
inductive TuiMsg where
  | winSize (w h : Nat)
  | key (k : Key)
  | tick
  | complete
  | fail (e : String)
deriving DecidableEq, Repr

/-- Side effects a transition requests from the runtime (the returned
`tea.Cmd`): nothing, quitting, starting a streaming exchange for the
submitted prompt, or persisting a cleared history. -/
inductive Eff where
  | none
  | quit
  | startStream (userInput : String)
  | clearHist
deriving DecidableEq, Repr

/-- The palette command actions, one constructor per Action function in
`getCommands()`. -/
inductive CmdAction where
  | switchProvider
  | switchModel
  | clearChat
  | helpA
  | configA
  | exitA
deriving DecidableEq, Repr

/-- Command mirrors the TUI `Command` struct with the action function
represented by its `CmdAction` tag. -/
structure Command where
  name : String
  description : String
  action : CmdAction
deriving DecidableEq, Repr

/-- commands mirrors `getCommands()`. -/
def commands : List Command :=
  [{ name := "/provider", description := "Switch AI provider",
     action := .switchProvider },
   { name := "/model", description := "Switch AI model",
     action := .switchModel },
   { name := "/clear", description := "Clear chat history",
     action := .clearChat },
   { name := "/help", description := "Show help", action := .helpA },
   { name := "/config", description := "Configure API keys",
     action := .configA },
   { name := "/exit", description := "Exit Nexly", action := .exitA }]

/-- spinnerFrames mirrors the fixed 10-frame animation table. -/
def spinnerFrames : List String :=
  ["⠋", "⠙", "⠹", "⠸", "⠼", "⠴", "⠦", "⠧", "⠇", "⠏"]

/-- Drop the final character of a string, mirroring the Go slice
`s[:len(s)-1]` used by the backspace handlers. -/
def strDropLast (s : String) : String := String.mk s.data.dropLast

/-- Substring test on character lists, mirroring Go `strings.Contains`. -/
def containsSub : List Char → List Char → Bool
  | [], needle => needle.isEmpty
  | c :: rest, needle =>
    List.isPrefixOf needle (c :: rest) || containsSub rest needle

/-- strContains mirrors Go `strings.Contains` on strings. -/
def strContains (s sub : String) : Bool := containsSub s.data sub.data

/-- The help text appended by `helpCmd`. -/
def helpText : String :=
  "\nNexly - AI Coding Assistant\n============================\n\n" ++
  "Commands:\n  /provider    - Switch AI provider\n" ++
  "  /model      - Switch AI model\n  /clear      - Clear chat history\n" ++
  "  /config     - Configure API keys\n  /help       - Show this help\n" ++
  "  /exit       - Exit Nexly\n\nKeyboard Shortcuts:\n" ++
  "  Ctrl+P      - Open command palette\n  Ctrl+C      - Exit Nexly\n" ++
  "  Ctrl+U      - Clear input\n"

/-- The configuration text appended by `configCmd` (JSON braces written as
escapes). -/
def configText : String :=
  "\nNexly Configuration\n====================\n\n" ++
  "To set API keys, edit ~/.nexly/config.json:\n\n\x7b\n" ++
  "  \"provider\": \"openai\",\n  \"model\": \"gpt-4\",\n" ++
  "  \"api_keys\": \x7b\n    \"openai\": \"sk-...\",\n" ++
  "    \"anthropic\": \"sk-ant-...\",\n    \"google\": \"AIza...\",\n" ++
  "    \"openrouter\": \"sk-or-...\",\n    \"nvidia\": \"nvapi-...\"\n" ++
  "  \x7d\n\x7d\n\n" ++
  "Available providers: openai, anthropic, google, openrouter, nvidia\n"

/-- runAction interprets one palette command Action on the model state,
mirroring `switchProviderCmd`, `switchModelCmd`, `clearChatCmd`,
`helpCmd`, `configCmd` and `exitCmd`.  `clearChatCmd` additionally calls
`config.ClearHistory()`, surfaced here as the `clearHist` effect. -/
def runAction (a : CmdAction) (m : Model) : Model × Eff :=
  match a with
  | .switchProvider =>
    ({ m with
        messages := m.messages ++
          [{ role := "assistant"
             content := "Available providers:\n" ++
               String.intercalate "\n" Config.GetProviders ++
               "\n\nUse `nexly provider set <provider>` to switch." }]
        commandView := false, commandInput := "" }, .none)
  | .switchModel =>
    ({ m with
        messages := m.messages ++
          [{ role := "assistant"
             content := "Available models for " ++ m.provider ++ ":\n" ++
               String.intercalate "\n" (Config.GetModels m.provider) ++
               "\n\nUse `nexly model set <model>` to switch." }]
        commandView := false, commandInput := "" }, .none)
  | .clearChat =>
    ({ m with
        messages := [{ role := "assistant",
                       content := "Chat history cleared." }]
        commandView := false, commandInput := "" }, .clearHist)
  | .helpA =>
    ({ m with
        messages := m.messages ++ [{ role := "assistant",
                                     content := helpText }]
        commandView := false, commandInput := "" }, .none)
  | .configA =>
    ({ m with
        messages := m.messages ++ [{ role := "assistant",
                                     content := configText }]
        commandView := false, commandInput := "" }, .none)
  | .exitA => (m, .quit)

/-- handleCommand mirrors `model.handleCommand`: run the exactly-matching
command's action, or append the unknown-command feedback and clear the
input. -/
def handleCommand (m : Model) (input : String) : Model × Eff :=
  match commands.find? (fun c => c.name = input) with
  | some c => runAction c.action m
  | none =>
    ({ m with
        messages := m.messages ++
          [{ role := "assistant",
             content := "Unknown command: " ++ input }]
        input := "" }, .none)

/-- sendMessage mirrors `model.sendMessage`: append the input as a user
message, clear the input, raise the streaming and spinner flags, and
request the exchange. -/
def sendMessage (m : Model) : Model × Eff :=
  let userInput := m.input
  ({ m with
      messages := m.messages ++ [{ role := "user", content := userInput }]
      input := ""
      streaming := true
      spinner := true }, .startStream userInput)

/-- updateCommandPalette mirrors `model.updateCommandPalette`, with the
guard sequence kept in source order (escape, enter, up, down, backspace,
runes). -/
def updateCommandPalette (m : Model) (k : Key) : Model × Eff :=
  if k = .escape then
    ({ m with commandView := false, commandInput := "" }, .none)
  else if k = .enter ∧ m.selectedCmd < commands.length then
    match commands.drop m.selectedCmd with
    | c :: _ => runAction c.action m
    | [] => (m, .none)
  else if k = .up ∧ 0 < m.selectedCmd then
    ({ m with selectedCmd := m.selectedCmd - 1 }, .none)
  else if k = .down ∧ m.selectedCmd < commands.length - 1 then
    ({ m with selectedCmd := m.selectedCmd + 1 }, .none)
  else if k = .backspace ∧ 0 < m.commandInput.length then
    ({ m with commandInput := strDropLast m.commandInput }, .none)
  else
    match k with
    | .runes s =>
      let newInput := m.commandInput ++ s
      let sel :=
        match commands.findIdx?
            (fun c => strContains c.name.toLower newInput.toLower) with
        | some i => i
        | none => m.selectedCmd
      ({ m with commandInput := newInput, selectedCmd := sel }, .none)
    | _ => (m, .none)

/-- update mirrors `model.Update`, with the chat-mode key guards kept in
source order: palette dispatch, ctrl+p, ctrl+c, enter (gated by the
streaming flag), ctrl+u, backspace, runes. -/
def update (m : Model) (msg : TuiMsg) : Model × Eff :=
  match msg with
  | .winSize w h => ({ m with width := w, height := h }, .none)
  | .key k =>
    if m.commandView then updateCommandPalette m k
    else if k = .ctrlP then
      ({ m with commandView := true, commandInput := "",
                selectedCmd := 0 }, .none)
    else if k = .ctrlC then (m, .quit)
    else if k = .enter ∧ m.streaming = false then
      if m.input = "" then (m, .none)
      else if Providers.strStartsWith m.input "/" then
        handleCommand m m.input
      else sendMessage m
    else if k = .ctrlU then ({ m with input := "" }, .none)
    else if k = .backspace ∧ 0 < m.input.length then
      ({ m with input := strDropLast m.input }, .none)
    else
      match k with
      | .runes s => ({ m with input := m.input ++ s }, .none)
      | _ => (m, .none)
  | .tick =>
    ({ m with spinnerFrame := (m.spinnerFrame + 1) % spinnerFrames.length },
     .none)
  | .complete => ({ m with streaming := false, spinner := false }, .none)
  | .fail e =>
    ({ m with streaming := false, spinner := false, errMsg := e }, .none)

/-- The state mutation `streamResponse` performs on a successful exchange
before it reports `streamingComplete`: the accumulated text is appended to
the conversation as an assistant message (it is also persisted through
`config.AddMessage`, which is I/O and not part of this state). -/
def streamResponseSuccess (m : Model) (result : String) : Model :=
  { m with messages := m.messages ++ [{ role := "assistant",
                                        content := result }] }

/-- The complete successful-exchange transition: the `streamResponse`
append followed by the `streamingComplete` case of Update. -/
def completeTransition (m : Model) (result : String) : Model :=
  (update (streamResponseSuccess m result) .complete).1

end Tui

/-- A JSON oracle mapping every payload to a well-formed Google frame
whose only part carries the empty text. -/
def pgConstEmptyText : String → Option Providers.GoogleChunk :=
  fun _ => some { candidates := [{ content := { parts := [{ text := "" }] } }] }

/-- A JSON oracle that fails on every OpenAI payload. -/
def poReject : String → Option Providers.OpenAIChunk := fun _ => none

/-- A JSON oracle that fails on every Anthropic payload. -/
def paReject : String → Option Providers.AnthropicChunk := fun _ => none

/-- A JSON oracle that fails on every Google payload. -/
def pgReject : String → Option Providers.GoogleChunk := fun _ => none

/-- A network oracle returning an empty 200 response to every request. -/
def netOk : Providers.HttpRequest → Providers.NetResponse :=
  fun _ => { status := 200, body := "", lines := [] }

/-- A network oracle returning a 500 response to every request. -/
def netFail : Providers.HttpRequest → Providers.NetResponse :=
  fun _ => { status := 500, body := "boom", lines := [] }

/-- A baseline idle chat-mode session state for concrete evaluations. -/
def baseState : Tui.Model :=
  { messages := [], input := "", provider := "openai", model := "gpt-4",
    streaming := false, spinner := false, spinnerFrame := 0, width := 80,
    height := 24, commandView := false, selectedCmd := 0, commandInput := "",
    errMsg := "" }

/-- A chat-mode session state that is mid-stream, with a stale error line
and a partially typed input. -/
def streamingState : Tui.Model :=
  { baseState with
      streaming := true
      spinner := true
      input := "ab"
      errMsg := "previous failure" }

/-- Projection observing the top-level `system` field of a built request
body (`none` when the field is absent or the shape has no such field). -/
def sysFieldOf : Providers.ReqBody → Option String
  | .anthropicShape _ _ _ _ s => s
  | _ => none

namespace Providers

/-- The OpenAI stream handler emits exactly the non-empty carried texts,
in input order. -/
theorem handleOpenAIStream_eq_filter (po : String → Option OpenAIChunk)
    (lines : List String) :
    handleOpenAIStream po lines = (carriedOpenAI po lines).filter neBlank := by
  induction lines with
  | nil => rfl
  | cons line rest ih =>
    simp only [handleOpenAIStream, carriedOpenAI, payloads,
      List.filterMap_cons, dataOf] at *
    by_cases h : strStartsWith (trimSpace line) dataMarker
    · simp only [h, if_true]
      by_cases hd : strDrop (trimSpace line) dataMarker.length = doneSentinel
      · simp [hd, untilDone]
      · simp only [hd, if_false, untilDone, List.takeWhile_cons]
        simp only [hd, decide_False, Bool.not_false, if_true]
        cases hpo : po (strDrop (trimSpace line) dataMarker.length) with
        | none => simpa [hpo, untilDone] using ih
        | some r =>
          cases hr : r.choices with
          | nil =>
            simp [hpo, hr, openAIText, List.filter_cons, neBlank, untilDone, ih]
          | cons c cs =>
            by_cases hc : c.delta.content = ""
            · simp [hpo, hr, hc, openAIText, List.filter_cons, neBlank,
                untilDone, ih]
            · simp [hpo, hr, hc, openAIText, List.filter_cons, neBlank,
                untilDone, ih]
    · simp only [h, if_false]
      simpa [untilDone] using ih

/-- The Anthropic stream handler emits exactly the non-empty carried
texts, in input order. -/
theorem handleAnthropicStream_eq_filter (pa : String → Option AnthropicChunk)
    (lines : List String) :
    handleAnthropicStream pa lines =
      (carriedAnthropic pa lines).filter neBlank := by
  induction lines with
  | nil => rfl
  | cons line rest ih =>
    simp only [handleAnthropicStream, carriedAnthropic, payloads,
      List.filterMap_cons, dataOf] at *
    by_cases h : strStartsWith (trimSpace line) dataMarker
    · simp only [h, if_true]
      cases hpa : pa (strDrop (trimSpace line) dataMarker.length) with
      | none => simpa [hpa] using ih
      | some r =>
        by_cases hc : r.delta.text = ""
        · simp [hpa, hc, anthropicText, List.filter_cons, neBlank, ih]
        · simp [hpa, hc, anthropicText, List.filter_cons, neBlank, ih]
    · simpa [h] using ih

/-- The Google stream handler's emissions are exactly the predicted sink
invocations: the first part text of every frame with non-empty candidate
and part arrays, whether or not that text is empty. -/
theorem handleGoogleStream_eq_emitted (pg : String → Option GoogleChunk)
    (lines : List String) :
    handleGoogleStream pg lines = googleEmitted pg lines := by
  induction lines with
  | nil => rfl
  | cons line rest ih =>
    simp only [handleGoogleStream, googleEmitted, payloads,
      List.filterMap_cons, dataOf] at *
    by_cases h : strStartsWith (trimSpace line) dataMarker
    · simp only [h, if_true]
      cases hpg : pg (strDrop (trimSpace line) dataMarker.length) with
      | none => simpa [hpg] using ih
      | some r =>
        cases hr : r.candidates with
        | nil => simp [hpg, hr, googleEmit, ih]
        | cons c cs =>
          cases hp : c.content.parts with
          | nil => simp [hpg, hr, hp, googleEmit, ih]
          | cons p ps => simp [hpg, hr, hp, googleEmit, ih]
    · simpa [h] using ih

/-- Dropping empty fragments does not change a concatenation. -/
theorem concatAll_filter_neBlank (l : List String) :
    concatAll (l.filter neBlank) = concatAll l := by
  induction l with
  | nil => rfl
  | cons s rest ih =>
    by_cases hs : s = ""
    · simp [hs, List.filter_cons, neBlank, concatAll, ih]
    · simp [hs, List.filter_cons, neBlank, concatAll, ih]

/-- Per payload, the Google sink invocation and the carried text agree up
to an empty fragment, so the concatenations coincide. -/
theorem concatAll_googleEmitted (pg : String → Option GoogleChunk)
    (lines : List String) :
    concatAll (googleEmitted pg lines) =
      concatAll (carriedGoogle pg lines) := by
  unfold googleEmitted carriedGoogle
  induction payloads lines with
  | nil => rfl
  | cons d ds ih =>
    simp only [List.filterMap_cons]
    cases hpg : pg d with
    | none => simpa using ih
    | some r =>
      cases hr : r.candidates with
      | nil =>
        have he : googleEmit r = none := by simp [googleEmit, hr]
        have ht : googleText r = "" := by simp [googleText, hr]
        simpa [hpg, he, ht, concatAll] using ih
      | cons c cs =>
        cases hp : c.content.parts with
        | nil =>
          have he : googleEmit r = none := by simp [googleEmit, hr, hp]
          have ht : googleText r = "" := by simp [googleText, hr, hp]
          simpa [hpg, he, ht, concatAll] using ih
        | cons p ps =>
          have he : googleEmit r = some p.text := by simp [googleEmit, hr, hp]
          have ht : googleText r = p.text := by simp [googleText, hr, hp]
          simp [hpg, he, ht, concatAll, ih]

end Providers

theorem filter_all_self {α : Type} (p : α → Bool) (l : List α) :
    (l.filter p).all p = true := by
  rw [List.all_eq_true]
  intro x hx
  exact (List.mem_filter.mp hx).2

/-- C1: for every provider variant and every finite sequence of
response-body lines, the stream handler yields TextDelta events whose
concatenation equals the assistant text carried by the well-formed data
lines, in input order; non-data lines are ignored, unparseable data lines
are skipped without aborting, and the OpenAI `[DONE]` sentinel terminates
decoding early.  The first conjunct of each pair pins the exact event
sequence (order included); the second is the concatenation equality. -/
theorem c1_decodeStream_concatenation
    (po : String → Option Providers.OpenAIChunk)
    (pa : String → Option Providers.AnthropicChunk)
    (pg : String → Option Providers.GoogleChunk) (lines : List String) :
    (Providers.handleOpenAIStream po lines =
        (Providers.carriedOpenAI po lines).filter Providers.neBlank
      ∧ Providers.concatAll (Providers.handleOpenAIStream po lines) =
        Providers.concatAll (Providers.carriedOpenAI po lines))
    ∧ (Providers.handleAnthropicStream pa lines =
        (Providers.carriedAnthropic pa lines).filter Providers.neBlank
      ∧ Providers.concatAll (Providers.handleAnthropicStream pa lines) =
        Providers.concatAll (Providers.carriedAnthropic pa lines))
    ∧ (Providers.handleGoogleStream pg lines =
        Providers.googleEmitted pg lines
      ∧ Providers.concatAll (Providers.handleGoogleStream pg lines) =
        Providers.concatAll (Providers.carriedGoogle pg lines)) := by
  refine ⟨⟨Providers.handleOpenAIStream_eq_filter po lines, ?_⟩,
    ⟨Providers.handleAnthropicStream_eq_filter pa lines, ?_⟩,
    ⟨Providers.handleGoogleStream_eq_emitted pg lines, ?_⟩⟩
  · rw [Providers.handleOpenAIStream_eq_filter po lines,
      Providers.concatAll_filter_neBlank]
  · rw [Providers.handleAnthropicStream_eq_filter pa lines,
      Providers.concatAll_filter_neBlank]
  · rw [Providers.handleGoogleStream_eq_emitted pg lines,
      Providers.concatAll_googleEmitted]

/-- C2 counterexample: a well-formed Google frame whose only part text is
the empty string does produce a TextDelta event (carrying the empty
string), contradicting the claim that the sink is invoked only on
non-empty text. -/
theorem c2_counterexample_google_empty_text_emitted :
    Providers.handleGoogleStream pgConstEmptyText ["data: x"] = [""]
    ∧ Providers.handleGoogleStream pgConstEmptyText ["data: x"] ≠ [] := by
  decide

/-- C2 amended: the OpenAI-compatible and Anthropic decoders invoke the
sink only on non-empty extracted text; the Google decoder invokes the sink
for every parsed frame with non-empty candidate and part arrays, including
when the extracted text is the empty string. -/
theorem c2_amended_emission_policy
    (po : String → Option Providers.OpenAIChunk)
    (pa : String → Option Providers.AnthropicChunk)
    (pg : String → Option Providers.GoogleChunk) (lines : List String) :
    (Providers.handleOpenAIStream po lines).all Providers.neBlank = true
    ∧ (Providers.handleAnthropicStream pa lines).all Providers.neBlank = true
    ∧ Providers.handleGoogleStream pg lines =
        Providers.googleEmitted pg lines := by
  refine ⟨?_, ?_, Providers.handleGoogleStream_eq_emitted pg lines⟩
  · rw [Providers.handleOpenAIStream_eq_filter po lines]
    exact filter_all_self _ _
  · rw [Providers.handleAnthropicStream_eq_filter pa lines]
    exact filter_all_self _ _

/-- C3 counterexample: the code rejects every status other than exactly
200, so status 201 — inside the 2xx range — is short-circuited into a
protocol error instead of being decoded, refuting the 2xx direction of
the claim. -/
theorem c3_counterexample_status_201_not_decoded :
    Providers.handleResponse "openai" poReject paReject pgReject 201
        "created" [] = .err (.api 201 "created")
    ∧ 200 ≤ 201 ∧ 201 < 300 := by
  decide

/-- C3 amended: a response with status exactly 200 is decoded as a stream
by the per-provider handler, and every other status — including other 2xx
codes — short-circuits decoding: the whole body is surfaced in an error
carrying the status code and the body text. -/
theorem c3_amended_status_200_boundary (name : String)
    (po : String → Option Providers.OpenAIChunk)
    (pa : String → Option Providers.AnthropicChunk)
    (pg : String → Option Providers.GoogleChunk)
    (status : Nat) (body : String) (lines : List String) :
    (status ≠ 200 →
      Providers.handleResponse name po pa pg status body lines =
        .err (.api status body))
    ∧ (status = 200 →
      Providers.handleResponse name po pa pg status body lines =
        .ok (Providers.decodeDispatch name po pa pg lines)) := by
  constructor
  · intro h
    simp [Providers.handleResponse, h]
  · intro h
    simp [Providers.handleResponse, h]

/-- C3 amended witness: a 500 response is surfaced as the protocol error,
while a 200 response is stream-decoded. -/
theorem c3_amended_status_200_boundary_witness :
    Providers.handleResponse "openai" poReject paReject pgReject 500
        "boom" [] = .err (.api 500 "boom")
    ∧ Providers.handleResponse "openai" poReject paReject pgReject 200
        "x" ["data: d"] = .ok [] := by
  constructor
  · exact (c3_amended_status_200_boundary "openai" poReject paReject pgReject
      500 "boom" []).1 (by decide)
  · have h := (c3_amended_status_200_boundary "openai" poReject paReject
      pgReject 200 "x" ["data: d"]).2 rfl
    rw [h]
    decide

/-- C4: with an empty API key for the selected provider, SendMessage
fails with the configuration error naming the provider, identically for
every network oracle — so no HTTP exchange influences the outcome — and
the result carries no sink invocations. -/
theorem c4_missing_api_key_fails_fast
    (po : String → Option Providers.OpenAIChunk)
    (pa : String → Option Providers.AnthropicChunk)
    (pg : String → Option Providers.GoogleChunk)
    (p : Providers.SimpleProvider) (messages : List Providers.Message)
    (h : p.apiKey = "") :
    ∀ net, Providers.SendMessage po pa pg p messages net =
      .err (.config ("API key not configured for provider: " ++ p.name)) := by
  intro net
  simp [Providers.SendMessage, h]

/-- C4 witness: an OpenAI provider with an empty key fails fast with the
formatted configuration error. -/
theorem c4_missing_api_key_fails_fast_witness :
    (Providers.NewSimpleProvider "openai" "" "gpt-4").apiKey = ""
    ∧ Providers.SendMessage poReject paReject pgReject
        (Providers.NewSimpleProvider "openai" "" "gpt-4") [] netOk =
      .err (.config "API key not configured for provider: openai") := by
  refine ⟨rfl, ?_⟩
  have h := c4_missing_api_key_fails_fast poReject paReject pgReject
    (Providers.NewSimpleProvider "openai" "" "gpt-4") [] rfl netOk
  rw [h]
  decide

theorem foldl_system_acc (l : List Providers.Message)
    (h : ∀ m ∈ l, m.role ≠ "system") (acc : String) :
    l.foldl (fun acc m => if m.role = "system" then m.content else acc) acc
      = acc := by
  induction l generalizing acc with
  | nil => rfl
  | cons m rest ih =>
    have hm : m.role ≠ "system" := h m (by simp)
    simp only [List.foldl_cons, if_neg hm]
    exact ih (fun x hx => h x (by simp [hx])) acc

theorem lastSystemContent_single (pre post : List Providers.Message)
    (s : String) (hpre : ∀ m ∈ pre, m.role ≠ "system")
    (hpost : ∀ m ∈ post, m.role ≠ "system") :
    Providers.lastSystemContent (pre ++ [⟨"system", s⟩] ++ post) = s := by
  unfold Providers.lastSystemContent
  rw [List.foldl_append, List.foldl_append, foldl_system_acc pre hpre]
  simp only [List.foldl_cons, List.foldl_nil, if_pos rfl]
  exact foldl_system_acc post hpost s

theorem nonSystemMessages_single (pre post : List Providers.Message)
    (s : String) (hpre : ∀ m ∈ pre, m.role ≠ "system")
    (hpost : ∀ m ∈ post, m.role ≠ "system") :
    Providers.nonSystemMessages (pre ++ [⟨"system", s⟩] ++ post)
      = pre ++ post := by
  unfold Providers.nonSystemMessages
  rw [List.filter_append, List.filter_append]
  have h1 : pre.filter (fun m => !(m.role = "system" : Bool)) = pre :=
    List.filter_eq_self.mpr (fun m hm => by simpa using hpre m hm)
  have h2 : post.filter (fun m => !(m.role = "system" : Bool)) = post :=
    List.filter_eq_self.mpr (fun m hm => by simpa using hpost m hm)
  have h3 : List.filter (fun m => !(m.role = "system" : Bool))
      [(⟨"system", s⟩ : Providers.Message)] = [] := by simp
  rw [h1, h2, h3, List.append_nil]

theorem formatGoogleMessages_append (l1 l2 : List Providers.Message) :
    Providers.formatGoogleMessages (l1 ++ l2)
      = Providers.formatGoogleMessages l1 ++
        Providers.formatGoogleMessages l2 := by
  simp [Providers.formatGoogleMessages]

/-- C5 counterexample: a message list containing a system message with
empty content and a user message; the Anthropic variant drops the system
message entirely — the built body has no top-level `system` field — so
the system content is not placed in the documented location. -/
theorem c5_counterexample_empty_system_dropped :
    Providers.buildRequestBody
        (Providers.NewSimpleProvider "anthropic" "k" "m")
        [⟨"system", ""⟩, ⟨"user", "hi"⟩]
      = .anthropicShape "m" [⟨"user", "hi"⟩] true 4096 none
    ∧ sysFieldOf (Providers.buildRequestBody
        (Providers.NewSimpleProvider "anthropic" "k" "m")
        [⟨"system", ""⟩, ⟨"user", "hi"⟩]) = none := by
  decide

/-- C5 amended: for every message list containing exactly one system
message, whose content is non-empty, and a user message, the built
request places the system content in the documented location with the
documented headers: Anthropic extracts it into the top-level `system`
field with the remaining messages in `messages`, `max_tokens` included,
under `x-api-key` and `anthropic-version` headers; Google maps every
message to a role/parts entry with the system role remapped to `model`,
under a Bearer header; every other provider keeps the messages — the
system message inline — in the OpenAI body shape under a Bearer header,
OpenRouter additionally setting the referer and title headers.  (With an
empty system content the Anthropic `system` field would be omitted, the
correction the counterexample forces.) -/
theorem c5_amended_system_placement (key mdl s : String)
    (pre post : List Providers.Message) (hs : s ≠ "")
    (hpre : ∀ m ∈ pre, m.role ≠ "system")
    (hpost : ∀ m ∈ post, m.role ≠ "system")
    (huser : ∃ m ∈ pre ++ post, m.role = "user") :
    Providers.buildRequestBody
        (Providers.NewSimpleProvider "anthropic" key mdl)
        (pre ++ [⟨"system", s⟩] ++ post)
      = .anthropicShape mdl (pre ++ post) true 4096 (some s)
    ∧ Providers.setHeaders (Providers.NewSimpleProvider "anthropic" key mdl)
      = [("x-api-key", key), ("anthropic-version", "2023-06-01"),
         ("Content-Type", "application/json")]
    ∧ (Providers.buildRequestBody
          (Providers.NewSimpleProvider "google" key mdl)
          (pre ++ [⟨"system", s⟩] ++ post)
        = .googleShape (Providers.formatGoogleMessages
            (pre ++ [⟨"system", s⟩] ++ post)) 7 4096
      ∧ Providers.formatGoogleMessages (pre ++ [⟨"system", s⟩] ++ post)
        = Providers.formatGoogleMessages pre ++ [⟨"model", [s]⟩] ++
          Providers.formatGoogleMessages post)
    ∧ ("Authorization", "Bearer " ++ key) ∈
        Providers.setHeaders (Providers.NewSimpleProvider "google" key mdl)
    ∧ (∀ pname, pname ≠ "anthropic" → pname ≠ "google" →
        Providers.buildRequestBody
            (Providers.NewSimpleProvider pname key mdl)
            (pre ++ [⟨"system", s⟩] ++ post)
          = .openaiShape mdl (pre ++ [⟨"system", s⟩] ++ post) true 7
        ∧ ("Authorization", "Bearer " ++ key) ∈
            Providers.setHeaders (Providers.NewSimpleProvider pname key mdl))
    ∧ ("HTTP-Referer", "https://nexlycode.vercel.app") ∈
        Providers.setHeaders
          (Providers.NewSimpleProvider "openrouter" key mdl)
    ∧ ("X-Title", "Nexly") ∈
        Providers.setHeaders
          (Providers.NewSimpleProvider "openrouter" key mdl) := by
  refine ⟨?_, by simp [Providers.setHeaders, Providers.NewSimpleProvider],
    ⟨?_, ?_⟩, by simp [Providers.setHeaders,
    Providers.NewSimpleProvider], ?_, by simp [Providers.setHeaders,
    Providers.NewSimpleProvider], by simp [Providers.setHeaders,
    Providers.NewSimpleProvider]⟩
  · simp only [Providers.buildRequestBody, Providers.NewSimpleProvider]
    rw [lastSystemContent_single pre post s hpre hpost,
      nonSystemMessages_single pre post s hpre hpost]
    simp [hs]
  · simp [Providers.buildRequestBody, Providers.NewSimpleProvider]
  · rw [formatGoogleMessages_append, formatGoogleMessages_append]
    simp [Providers.formatGoogleMessages]
  · intro pname h1 h2
    constructor
    · simp [Providers.buildRequestBody, Providers.NewSimpleProvider, h1, h2]
    · by_cases h3 : pname = "openrouter"
      · simp [Providers.setHeaders, Providers.NewSimpleProvider, h1, h2, h3]
      · by_cases h4 : pname = "nvidia"
        · simp [Providers.setHeaders, Providers.NewSimpleProvider,
            h1, h2, h3, h4]
        · simp [Providers.setHeaders, Providers.NewSimpleProvider,
            h1, h2, h3, h4]

/-- C5 amended witness: a concrete system+user pair is placed correctly
for Anthropic and kept inline for NVIDIA. -/
theorem c5_amended_system_placement_witness :
    Providers.buildRequestBody
        (Providers.NewSimpleProvider "anthropic" "k" "m")
        [⟨"system", "be brief"⟩, ⟨"user", "hi"⟩]
      = .anthropicShape "m" [⟨"user", "hi"⟩] true 4096 (some "be brief")
    ∧ Providers.buildRequestBody
        (Providers.NewSimpleProvider "nvidia" "k" "m")
        [⟨"system", "be brief"⟩, ⟨"user", "hi"⟩]
      = .openaiShape "m" [⟨"system", "be brief"⟩, ⟨"user", "hi"⟩]
          true 7 := by
  have h := c5_amended_system_placement "k" "m" "be brief" []
    [⟨"user", "hi"⟩] (by decide) (by simp) (by decide)
    ⟨⟨"user", "hi"⟩, by simp, rfl⟩
  exact ⟨by simpa using h.1,
    by simpa using (h.2.2.2.2.1 "nvidia" (by decide) (by decide)).1⟩

/-- C6 counterexample: a successful completion out of a streaming state
with a stale error line leaves the error text in place — it is not
cleared — refuting the clears-the-last-error part of the claim. -/
theorem c6_counterexample_error_not_cleared :
    streamingState.streaming = true
    ∧ streamingState.errMsg = "previous failure"
    ∧ (Tui.completeTransition streamingState "ok").errMsg
        = "previous failure"
    ∧ (Tui.completeTransition streamingState "ok").errMsg ≠ "" := by
  decide

/-- C6 amended: when a streaming exchange completes successfully, the
accumulated text is appended to the conversation history as an assistant
message and the session returns to idle (streaming and spinner flags
cleared); the last-error text is left unchanged — it is set on failure
and never cleared. -/
theorem c6_amended_success_completion (m : Tui.Model) (result : String)
    (h : m.streaming = true) :
    (Tui.completeTransition m result).messages
      = m.messages ++ [⟨"assistant", result⟩]
    ∧ (Tui.completeTransition m result).streaming = false
    ∧ (Tui.completeTransition m result).spinner = false
    ∧ (Tui.completeTransition m result).errMsg = m.errMsg := by
  simp [Tui.completeTransition, Tui.streamResponseSuccess, Tui.update]

/-- C6 amended witness: the concrete mid-stream state gains the assistant
message and returns to idle with its error text untouched. -/
theorem c6_amended_success_completion_witness :
    (Tui.completeTransition streamingState "done").messages
      = streamingState.messages ++ [⟨"assistant", "done"⟩]
    ∧ (Tui.completeTransition streamingState "done").streaming = false
    ∧ (Tui.completeTransition streamingState "done").spinner = false
    ∧ (Tui.completeTransition streamingState "done").errMsg
        = streamingState.errMsg :=
  c6_amended_success_completion streamingState "done" rfl

/-- C7 counterexample: with streaming in progress in chat mode, a typed
character is appended to the input buffer — editing is not disabled. -/
theorem c7_counterexample_typing_while_streaming :
    streamingState.streaming = true
    ∧ streamingState.commandView = false
    ∧ streamingState.input = "ab"
    ∧ (Tui.update streamingState (.key (.runes "c"))).1.input = "abc" := by
  decide

/-- C7 amended: while streaming in chat mode, the editing keys still
mutate the input buffer exactly as when idle — character append, clear
all, and backspace (when the buffer is non-empty) take effect; only
submission is gated by the streaming flag. -/
theorem c7_amended_editing_enabled_while_streaming (m : Tui.Model)
    (s : String) (hv : m.commandView = false) (hs : m.streaming = true) :
    (Tui.update m (.key (.runes s))).1.input = m.input ++ s
    ∧ (Tui.update m (.key .ctrlU)).1.input = ""
    ∧ (0 < m.input.length →
        (Tui.update m (.key .backspace)).1.input
          = Tui.strDropLast m.input) := by
  refine ⟨?_, ?_, fun hlen => ?_⟩
  · simp [Tui.update, hv]
  · simp [Tui.update, hv]
  · simp [Tui.update, hv, hlen]

/-- C7 amended witness: concrete edits on the mid-stream state. -/
theorem c7_amended_editing_enabled_while_streaming_witness :
    (Tui.update streamingState (.key (.runes "c"))).1.input
      = streamingState.input ++ "c"
    ∧ (Tui.update streamingState (.key .ctrlU)).1.input = ""
    ∧ (0 < streamingState.input.length →
        (Tui.update streamingState (.key .backspace)).1.input
          = Tui.strDropLast streamingState.input) :=
  c7_amended_editing_enabled_while_streaming streamingState "c" rfl rfl

/-- C8: while streaming in chat mode, an enter key event is a no-op: the
state is returned unchanged and no effect — in particular no new
exchange — is requested, so no user message is appended and the input is
not cleared. -/
theorem c8_submit_while_streaming_noop (m : Tui.Model)
    (hv : m.commandView = false) (hs : m.streaming = true) :
    Tui.update m (.key .enter) = (m, .none) := by
  simp [Tui.update, hv, hs]

/-- C8 witness: the concrete mid-stream state is unchanged by enter. -/
theorem c8_submit_while_streaming_noop_witness :
    Tui.update streamingState (.key .enter) = (streamingState, .none) :=
  c8_submit_while_streaming_noop streamingState rfl rfl

/-- C9: after every AddMessage the stored history has at most 100
entries; the result is always a suffix of the appended history (the most
recent entries in original order), and when the append exceeds the cap
exactly 100 entries are retained. -/
theorem c9_history_capped (h : List Config.Message) (role content : String) :
    (Config.AddMessage h role content).length ≤ 100
    ∧ Config.AddMessage h role content <:+
        (h ++ [(⟨role, content⟩ : Config.Message)])
    ∧ (100 < (h ++ [(⟨role, content⟩ : Config.Message)]).length →
        (Config.AddMessage h role content).length = 100) := by
  have hEq : Config.AddMessage h role content =
      if 100 < (h ++ [(⟨role, content⟩ : Config.Message)]).length then
        (h ++ [(⟨role, content⟩ : Config.Message)]).drop
          ((h ++ [(⟨role, content⟩ : Config.Message)]).length - 100)
      else h ++ [(⟨role, content⟩ : Config.Message)] := rfl
  rw [hEq]
  by_cases hc : 100 < (h ++ [(⟨role, content⟩ : Config.Message)]).length
  · rw [if_pos hc]
    have hlen : ((h ++ [(⟨role, content⟩ : Config.Message)]).drop
        ((h ++ [(⟨role, content⟩ : Config.Message)]).length - 100)).length
        = 100 := by
      rw [List.length_drop]
      omega
    exact ⟨by omega, List.drop_suffix _ _, fun _ => hlen⟩
  · rw [if_neg hc]
    exact ⟨by omega, List.suffix_refl _, fun hx => absurd hx hc⟩

/-- C9 witness: appending to a full 100-entry history keeps exactly the
most recent 100 entries. -/
theorem c9_history_capped_witness :
    100 < ((List.replicate 100 (⟨"user", "x"⟩ : Config.Message)) ++
      [(⟨"user", "y"⟩ : Config.Message)]).length
    ∧ (Config.AddMessage (List.replicate 100
        (⟨"user", "x"⟩ : Config.Message)) "user" "y").length = 100 :=
  ⟨by simp,
   (c9_history_capped (List.replicate 100 (⟨"user", "x"⟩ : Config.Message))
     "user" "y").2.2 (by simp)⟩

/-- C10: a provider identifier outside the known set silently falls back
to OpenAI-compatible behaviour: the OpenAI chat-completions endpoint, the
OpenAI body shape (model, messages, stream, temperature), the Bearer
authorization header pair, and the OpenAI stream decoder (the one with
the `[DONE]` sentinel). -/
theorem c10_unknown_provider_openai_fallback (pname key mdl : String)
    (messages : List Providers.Message)
    (po : String → Option Providers.OpenAIChunk)
    (pa : String → Option Providers.AnthropicChunk)
    (pg : String → Option Providers.GoogleChunk) (lines : List String)
    (h : pname ∉ ["openai", "anthropic", "google", "openrouter", "nvidia"]) :
    (Providers.NewSimpleProvider pname key mdl).apiURL
      = "https://api.openai.com/v1/chat/completions"
    ∧ Providers.buildRequestBody (Providers.NewSimpleProvider pname key mdl)
        messages = .openaiShape mdl messages true 7
    ∧ Providers.setHeaders (Providers.NewSimpleProvider pname key mdl)
      = [("Authorization", "Bearer " ++ key),
         ("Content-Type", "application/json")]
    ∧ Providers.decodeDispatch pname po pa pg lines
      = Providers.handleOpenAIStream po lines := by
  simp only [List.mem_cons, List.not_mem_nil, or_false, not_or] at h
  obtain ⟨h1, h2, h3, h4, h5⟩ := h
  refine ⟨?_, ?_, ?_, ?_⟩
  · simp [Providers.NewSimpleProvider, h1, h2, h3, h4, h5]
  · simp [Providers.buildRequestBody, Providers.NewSimpleProvider,
      h2, h3]
  · simp [Providers.setHeaders, Providers.NewSimpleProvider,
      h2, h3, h4, h5]
  · simp [Providers.decodeDispatch, h2, h3]

/-- C10 witness: the unknown provider name "mistral" behaves exactly like
the OpenAI-compatible default. -/
theorem c10_unknown_provider_openai_fallback_witness :
    (Providers.NewSimpleProvider "mistral" "k" "m").apiURL
      = "https://api.openai.com/v1/chat/completions"
    ∧ Providers.buildRequestBody (Providers.NewSimpleProvider "mistral" "k"
        "m") [] = .openaiShape "m" [] true 7
    ∧ Providers.setHeaders (Providers.NewSimpleProvider "mistral" "k" "m")
      = [("Authorization", "Bearer " ++ "k"),
         ("Content-Type", "application/json")]
    ∧ Providers.decodeDispatch "mistral" poReject paReject pgReject
        ["data: d"]
      = Providers.handleOpenAIStream poReject ["data: d"] :=
  c10_unknown_provider_openai_fallback "mistral" "k" "m" [] poReject
    paReject pgReject ["data: d"] (by decide)
